import Mathlib

/-!
Verification of the RemnaShop order-fulfillment state machine and
anomaly/risk detection engine, shallowly embedded from the Python source
(`services/orders.py`, `jobs/anomaly.py`, `services/panel_api.py`,
`bot.py`).  The SQLite `orders` table is modelled as a list of rows
(`order_id` carries a UNIQUE constraint in the schema, stated where needed
as `OrderIdsNodup`); timestamps are integers (Unix seconds); SQL `NULL`
columns are `Option` fields.
-/

namespace RemnaShop

/-- Order status strings from `services/orders.py`
(STATUS_PENDING .. STATUS_FAILED). -/
inductive Status where
  | pending
  | approved
  | rejected
  | delivered
  | failed
deriving DecidableEq, Repr

/-- One row of the `orders` table (schema in `storage/db.py`). -/
structure Order where
  order_id : String
  tg_id : Nat
  plan_key : String
  order_type : String
  target_uuid : String
  status : Status
  payment_text : Option String
  admin_message_id : Option Nat
  menu_message_id : Option Nat
  waiting_message_id : Option Nat
  delivered_uuid : Option String
  error_message : Option String
  created_at : Nat
  updated_at : Nat
deriving DecidableEq, Repr

/-- The WHERE clause of `update_order_status`:
`order_id=? AND status IN (from_statuses)`. -/
def matches_guard (oid : String) (froms : List Status) (o : Order) : Bool :=
  o.order_id == oid && froms.contains o.status

/-- The SET clause of `update_order_status`:
`status=?, updated_at=?, error_message=?, delivered_uuid=?`. -/
def set_row (to_status : Status) (now : Nat) (em du : Option String) (o : Order) : Order :=
  { o with status := to_status, updated_at := now, error_message := em, delivered_uuid := du }

/-- `services/orders.py::update_order_status`: conditional UPDATE over the
orders table; the returned flag is `changed > 0`.  The Python defaults
`error_message=None, delivered_uuid=None` are passed explicitly here. -/
def update_order_status (db : List Order) (oid : String) (froms : List Status)
    (to_status : Status) (now : Nat) (em du : Option String) : List Order × Bool :=
  (db.map (fun o => if matches_guard oid froms o then set_row to_status now em du o else o),
   db.any (matches_guard oid froms))

/-- `services/orders.py::get_order`: `SELECT * FROM orders WHERE order_id=?`,
first row. -/
def get_order (db : List Order) (oid : String) : Option Order :=
  db.find? (fun o => o.order_id == oid)

/-- The schema's `order_id TEXT UNIQUE` constraint. -/
def OrderIdsNodup (db : List Order) : Prop :=
  (db.map Order.order_id).Nodup

instance (db : List Order) : Decidable (OrderIdsNodup db) :=
  inferInstanceAs (Decidable ((db.map Order.order_id).Nodup))

/-- The claim call at `bot.py:1683`:
`update_order_status(db_execute, order_id, [STATUS_PENDING], STATUS_APPROVED)`
with both optional columns left at their NULL defaults. -/
def claim_order (db : List Order) (oid : String) (now : Nat) : List Order × Bool :=
  update_order_status db oid [Status.pending] Status.approved now none none

/-- The operator retry call at `bot.py:1656`:
`update_order_status(..., [STATUS_FAILED], STATUS_APPROVED, error_message='retry_by_admin')`. -/
def retry_order (db : List Order) (oid : String) (now : Nat) : List Order × Bool :=
  update_order_status db oid [Status.failed] Status.approved now (some "retry_by_admin") none

/-- Every `from_statuses` list passed to `update_order_status` anywhere in the
program (`bot.py` lines 578, 1553, 1634, 1656, 1683, 1695/1709/1714/1758/1799/1805,
1739/1780). -/
def program_from_statuses : List (List Status) :=
  [[Status.pending], [Status.pending, Status.approved], [Status.failed], [Status.approved]]

/-- Pending orders of one requester:
`SELECT * FROM orders WHERE tg_id=? AND status='pending'`. -/
def pending_for (db : List Order) (tg : Nat) : List Order :=
  db.filter (fun o => o.tg_id == tg && o.status == Status.pending)

/-- `ORDER BY created_at DESC LIMIT 1` over a result set: the row with the
largest `created_at` (earlier row wins ties, refining SQLite's unspecified
tie order). -/
def latest_created (l : List Order) : Option Order :=
  l.foldl (fun acc o =>
    match acc with
    | none => some o
    | some b => if o.created_at > b.created_at then some o else some b) none

/-- The fresh row INSERTed by `create_order` (`services/orders.py:35-40`);
`new_id` stands for the generated `uuid.uuid4().hex[:12]`. -/
def new_order (tg : Nat) (plan_key order_type target_uuid : String)
    (menu_message_id : Option Nat) (now : Nat) (new_id : String) : Order :=
  { order_id := new_id, tg_id := tg, plan_key := plan_key, order_type := order_type,
    target_uuid := target_uuid, status := Status.pending, payment_text := none,
    admin_message_id := none, menu_message_id := menu_message_id,
    waiting_message_id := none, delivered_uuid := none, error_message := none,
    created_at := now, updated_at := now }

/-- `services/orders.py::create_order`: reuse the newest pending order of the
requester if one exists (`created=false`), otherwise INSERT a fresh `pending`
row. -/
def create_order (db : List Order) (tg : Nat) (plan_key order_type target_uuid : String)
    (menu_message_id : Option Nat) (now : Nat) (new_id : String) :
    List Order × Order × Bool :=
  match latest_created (pending_for db tg) with
  | some existing => (db, existing, false)
  | none =>
    let o := new_order tg plan_key order_type target_uuid menu_message_id now new_id
    (db ++ [o], o, true)

/-- One prepared access-log record handed to `build_anomaly_incidents`
(`bot.py:1920`-`1926`): `ts` is the precomputed `_ts` integer (0 when no
timestamp field parsed), string fields are `""` when the JSON key is absent
or falsy. -/
structure LogRecord where
  ts : Int
  userUuid : String
  ip : String
  requestIp : String
  userAgent : String
deriving DecidableEq, Repr

/-- The coalescing `item.get('ip') or item.get('requestIp')` in
`jobs/anomaly.py:18`. -/
def recIp (r : LogRecord) : String :=
  if r.ip ≠ "" then r.ip else r.requestIp

/-- The skip test `if ts and ts <= last_scan_ts: continue`
(`jobs/anomaly.py:12`). -/
def skipTs (last_scan_ts : Int) (r : LogRecord) : Bool :=
  r.ts ≠ 0 && r.ts ≤ last_scan_ts

/-- Records that survive the high-water-mark filter this cycle. -/
def freshRecords (logs : List LogRecord) (last_scan_ts : Int) : List LogRecord :=
  logs.filter (fun r => !skipTs last_scan_ts r)

/-- The running `max_seen_ts` of `jobs/anomaly.py:8,14-15`: starts at
`last_scan_ts` and takes the maximum over every record passing the
timestamp filter (the update happens before the subject/ip checks). -/
def max_seen_ts (logs : List LogRecord) (last_scan_ts : Int) : Int :=
  (freshRecords logs last_scan_ts).foldl (fun m r => max m r.ts) last_scan_ts

/-- A record that reaches the grouping maps (`jobs/anomaly.py:17-25`):
fresh, non-empty subject, not whitelisted, and has a source address. -/
def scoredRecord (last_scan_ts : Int) (whitelist : List String) (r : LogRecord) : Bool :=
  !skipTs last_scan_ts r && r.userUuid ≠ "" && !whitelist.contains r.userUuid
    && recIp r ≠ ""

/-- `user_logs[uid]`: grouped records of one subject, in input order. -/
def userRecords (logs : List LogRecord) (last_scan_ts : Int) (whitelist : List String)
    (uid : String) : List LogRecord :=
  logs.filter (fun r => scoredRecord last_scan_ts whitelist r && r.userUuid == uid)

/-- The keys of `user_ip_map`: subjects owning at least one scored record. -/
def subjectUids (logs : List LogRecord) (last_scan_ts : Int)
    (whitelist : List String) : List String :=
  ((logs.filter (scoredRecord last_scan_ts whitelist)).map LogRecord.userUuid).dedup

/-- `len(ips)`: distinct source addresses of a subject. -/
def ipCountOf (logs : List LogRecord) (last_scan_ts : Int) (whitelist : List String)
    (uid : String) : Nat :=
  ((userRecords logs last_scan_ts whitelist uid).map recIp).dedup.length

/-- `len(user_ua_map.get(uid, set()))`: distinct client signatures, each
truncated to 120 characters before counting (`jobs/anomaly.py:23-24`). -/
def uaDiversityOf (logs : List LogRecord) (last_scan_ts : Int) (whitelist : List String)
    (uid : String) : Nat :=
  ((userRecords logs last_scan_ts whitelist uid).filterMap
    (fun r => if r.userAgent ≠ "" then some (r.userAgent.take 120) else none)).dedup.length

/-- `density = min(len(user_logs.get(uid, [])), 20)` (`jobs/anomaly.py:31`). -/
def densityOf (logs : List LogRecord) (last_scan_ts : Int) (whitelist : List String)
    (uid : String) : Nat :=
  min (userRecords logs last_scan_ts whitelist uid).length 20

/-- `score = ip_count * 2 + ua_diversity + density // 3` (`jobs/anomaly.py:32`). -/
def scoreOf (logs : List LogRecord) (last_scan_ts : Int) (whitelist : List String)
    (uid : String) : Nat :=
  ipCountOf logs last_scan_ts whitelist uid * 2
    + uaDiversityOf logs last_scan_ts whitelist uid
    + densityOf logs last_scan_ts whitelist uid / 3

/-- One incident dict appended at `jobs/anomaly.py:42-49`; `evidence` keeps
the first 10 grouped records of the subject. -/
structure Incident where
  uid : String
  ip_count : Nat
  ua_diversity : Nat
  density : Nat
  score : Nat
  evidence : List LogRecord
deriving DecidableEq, Repr

/-- The incident built for one subject of the scanned batch. -/
def build_incident (logs : List LogRecord) (last_scan_ts : Int) (whitelist : List String)
    (uid : String) : Incident :=
  { uid := uid,
    ip_count := ipCountOf logs last_scan_ts whitelist uid,
    ua_diversity := uaDiversityOf logs last_scan_ts whitelist uid,
    density := densityOf logs last_scan_ts whitelist uid,
    score := scoreOf logs last_scan_ts whitelist uid,
    evidence := (userRecords logs last_scan_ts whitelist uid).take 10 }

/-- `jobs/anomaly.py::build_anomaly_incidents`: the per-subject loop skips a
subject iff `ip_count <= ip_threshold and score < ip_threshold * 2`
(`jobs/anomaly.py:33`), and the new high-water mark is returned alongside. -/
def build_anomaly_incidents (logs : List LogRecord) (last_scan_ts : Int)
    (whitelist : List String) (ip_threshold : Nat) : List Incident × Int :=
  ((subjectUids logs last_scan_ts whitelist).filterMap (fun uid =>
      if (build_incident logs last_scan_ts whitelist uid).ip_count ≤ ip_threshold ∧
         (build_incident logs last_scan_ts whitelist uid).score < ip_threshold * 2 then none
      else some (build_incident logs last_scan_ts whitelist uid)),
   max_seen_ts logs last_scan_ts)

/-- The promotion condition as the spec words it: `ip_count` EXCEEDS the
threshold, or `score` EXCEEDS twice the threshold (both strict).  Kept
separate from the source-derived condition to compare the two. -/
def spec_promotes (ip_count score ip_threshold : Nat) : Prop :=
  ip_count > ip_threshold ∨ score > ip_threshold * 2

/-- One row of the `anomaly_events` table as inserted at `bot.py:1956-1959`;
`risk_level` and `action_taken` hold the program's literal labels
(`高`/`中`/`低` = high/medium/low, `禁用`/`限速`/`告警` =
disable/rate-limit/alert). -/
structure AnomalyEvent where
  user_uuid : String
  risk_level : String
  risk_score : Nat
  ip_count : Nat
  ua_diversity : Nat
  density : Nat
  action_taken : String
  created_at : Nat
deriving DecidableEq, Repr

/-- A remote mutation issued by the risk responder (`bot.py:1943,1948`). -/
inductive RemoteCall where
  | disableUser (uid : String)
  | patchStatus (uid : String) (new_status : String)
deriving DecidableEq, Repr

/-- The responder's persisted side state: `risk_watchlist` (a set of uids)
and `risk_unfreeze_candidates` (a dict uid -> rate-limit time, modelled as
an association list in insertion order). -/
structure RiskState where
  watchlist : List String
  unfreeze_candidates : List (String × Nat)
deriving DecidableEq, Repr

/-- Python `set.add`: no-op when present, else appended. -/
def watchlist_add (wl : List String) (uid : String) : List String :=
  if wl.contains uid then wl else wl ++ [uid]

/-- Python `dict.pop(uid, None)`: drop the entry if present. -/
def candidates_pop (l : List (String × Nat)) (uid : String) : List (String × Nat) :=
  l.filter (fun p => p.1 ≠ uid)

/-- Python `d[uid] = t`: overwrite in place or append. -/
def candidates_set (l : List (String × Nat)) (uid : String) (t : Nat) :
    List (String × Nat) :=
  if l.any (fun p => p.1 == uid) then
    l.map (fun p => if p.1 == uid then (uid, t) else p)
  else l ++ [(uid, t)]

/-- The per-incident branch of `check_anomalies_job` (`bot.py:1937-1959`):
grades the score against the two cutoffs, issues the remote mutation of
that tier, updates watchlist/unfreeze candidates, and builds the single
`anomaly_events` row inserted afterwards. -/
def respond_incident (low_score high_score now : Nat) (st : RiskState)
    (inc : Incident) : RiskState × List RemoteCall × AnomalyEvent :=
  if inc.score ≥ high_score then
    ({ st with unfreeze_candidates := candidates_pop st.unfreeze_candidates inc.uid },
     [RemoteCall.disableUser inc.uid],
     { user_uuid := inc.uid, risk_level := "高", risk_score := inc.score,
       ip_count := inc.ip_count, ua_diversity := inc.ua_diversity,
       density := inc.density, action_taken := "禁用", created_at := now })
  else if inc.score ≥ low_score then
    ({ st with unfreeze_candidates := candidates_set st.unfreeze_candidates inc.uid now },
     [RemoteCall.patchStatus inc.uid "LIMITED"],
     { user_uuid := inc.uid, risk_level := "中", risk_score := inc.score,
       ip_count := inc.ip_count, ua_diversity := inc.ua_diversity,
       density := inc.density, action_taken := "限速", created_at := now })
  else
    ({ st with watchlist := watchlist_add st.watchlist inc.uid },
     [],
     { user_uuid := inc.uid, risk_level := "低", risk_score := inc.score,
       ip_count := inc.ip_count, ua_diversity := inc.ua_diversity,
       density := inc.density, action_taken := "告警", created_at := now })

/-- The `for item in incidents` loop: threads the risk state through each
incident, accumulating the remote calls issued and the event rows inserted. -/
def run_responder (low_score high_score now : Nat) (st : RiskState)
    (incs : List Incident) : RiskState × List RemoteCall × List AnomalyEvent :=
  incs.foldl (fun acc inc =>
    ((respond_incident low_score high_score now acc.1 inc).1,
     acc.2.1 ++ (respond_incident low_score high_score now acc.1 inc).2.1,
     acc.2.2 ++ [(respond_incident low_score high_score now acc.1 inc).2.2])) (st, [], [])

/-- The conditional persist of the high-water mark at `bot.py:1986-1987`:
`if max_seen_ts > last_scan_ts: <store max_seen_ts>`. -/
def persisted_mark (last_scan_ts found_max : Int) : Int :=
  if found_max > last_scan_ts then found_max else last_scan_ts

/-- Renewal expiry arithmetic of `bot.py:1717-1723`, over Unix seconds.
`parsed` is the result of the `strptime` attempt on the entitlement's
`expireAt` (`none` when absent or unparseable, in which case the code sets
`current_expire = now`); `add_days` is `plan.days`. -/
def renewal_new_expire (parsed : Option Int) (now add_days : Int) : Int :=
  let current_expire := match parsed with
    | some t => t
    | none => now
  if current_expire > now then current_expire + add_days * 86400
  else now + add_days * 86400

/-- Renewal traffic-limit arithmetic of `bot.py:1725-1727`:
`new_limit = user_info.get('trafficLimitBytes', 0)`, incremented by the
plan's allowance only under the `NO_RESET` strategy. -/
def renewal_new_limit (current_limit add_traffic : Int) (reset_strategy : String) : Int :=
  if reset_strategy = "NO_RESET" then current_limit + add_traffic else current_limit

/-- HTTP verbs dispatched by `safe_api_request` (`services/panel_api.py:45-52`);
the verb selects the client call only and never enters the retry decision. -/
inductive HttpMethod where
  | get
  | post
  | patch
  | delete
deriving DecidableEq, Repr

/-- What one attempt of the request loop observes: a response with a status
code, an `httpx.HTTPError`, or any other exception. -/
inductive ApiOutcome where
  | resp (status_code : Nat)
  | httpErr
  | otherErr
deriving DecidableEq, Repr

/-- `_RETRYABLE_STATUS_CODES = {429, 500, 502, 503, 504}`
(`services/panel_api.py:8`). -/
def retryable_status_codes : List Nat := [429, 500, 502, 503, 504]

/-- The `for attempt in range(1, max_attempts + 1)` loop of
`services/panel_api.py::safe_api_request` with `max_attempts = 3`, run
against an oracle listing the outcome of each successive attempt.  Returns
the final result (`some code` for a returned response, `none` for the
exception paths) paired with the number of HTTP requests actually issued.
A retryable status or an `httpx.HTTPError` is retried while
`attempt < max_attempts`; any other exception returns immediately. -/
def safe_api_request_from (method : HttpMethod) : Nat → List ApiOutcome → Option Nat × Nat
  | _, [] => (none, 0)
  | attempt, o :: rest =>
    match o with
    | ApiOutcome.resp code =>
      if code ∈ retryable_status_codes ∧ attempt < 3 then
        let tail := safe_api_request_from method (attempt + 1) rest
        (tail.1, tail.2 + 1)
      else (some code, 1)
    | ApiOutcome.httpErr =>
      if attempt < 3 then
        let tail := safe_api_request_from method (attempt + 1) rest
        (tail.1, tail.2 + 1)
      else (none, 1)
    | ApiOutcome.otherErr => (none, 1)

/-- `safe_api_request` entered at attempt 1. -/
def safe_api_request (method : HttpMethod) (outcomes : List ApiOutcome) :
    Option Nat × Nat :=
  safe_api_request_from method 1 outcomes

/-- A pending order with no optional columns set, used to instantiate the
claims on a concrete ledger. -/
def sampleOrder : Order :=
  { order_id := "o1", tg_id := 7, plan_key := "p1", order_type := "new",
    target_uuid := "0", status := Status.pending, payment_text := none,
    admin_message_id := none, menu_message_id := none, waiting_message_id := none,
    delivered_uuid := none, error_message := none, created_at := 100, updated_at := 100 }

/-- A delivered order, used to instantiate the absorbing-state claim. -/
def sampleDelivered : Order :=
  { order_id := "o2", tg_id := 8, plan_key := "p1", order_type := "renew",
    target_uuid := "u-2", status := Status.delivered, payment_text := some "1234****5678",
    admin_message_id := some 1, menu_message_id := none, waiting_message_id := none,
    delivered_uuid := some "u-2", error_message := none, created_at := 50, updated_at := 60 }

/-- A failed order holding a categorized failure reason, used to instantiate
the retry-overwrite claim. -/
def sampleFailed : Order :=
  { order_id := "o3", tg_id := 9, plan_key := "p2", order_type := "new",
    target_uuid := "0", status := Status.failed, payment_text := none,
    admin_message_id := none, menu_message_id := none, waiting_message_id := none,
    delivered_uuid := none, error_message := some "reason:network|panel_api_error_new",
    created_at := 70, updated_at := 80 }

/-- The two-record batch refuting the strict-inequality reading of the
promotion rule: subject `u`, two distinct addresses, no client signature. -/
def boundaryLogs : List LogRecord :=
  [⟨10, "u", "1.1.1.1", "", ""⟩, ⟨11, "u", "2.2.2.2", "", ""⟩]

/-- A batch whose records carry `_ts = 0` (unparseable timestamps), used to
replay an already-processed cycle. -/
def replayLogs : List LogRecord :=
  [⟨0, "u", "1.1.1.1", "", ""⟩, ⟨0, "u", "2.2.2.2", "", ""⟩]

/-- The spec's worked example: one subject with 30 distinct addresses, 5
distinct client signatures and 30 records. -/
def exampleLogs : List LogRecord :=
  (List.range 30).map (fun i =>
    ⟨(10 : Int) + i, "u", "ip" ++ toString i, "", "ua" ++ toString (i % 5)⟩)

/-- The spec's high-tier example: the same subject shape with 60 distinct
addresses. -/
def exampleHighLogs : List LogRecord :=
  (List.range 60).map (fun i =>
    ⟨(10 : Int) + i, "u", "ip" ++ toString i, "", "ua" ++ toString (i % 5)⟩)

instance (a b c : Nat) : Decidable (spec_promotes a b c) :=
  inferInstanceAs (Decidable (a > c ∨ b > c * 2))

/-- A `get_order` hit is a member of the table carrying the queried id. -/
theorem get_order_mem {db : List Order} {oid : String} {o : Order}
    (h : get_order db oid = some o) : o ∈ db ∧ o.order_id = oid := by
  refine ⟨List.mem_of_find?_eq_some h, ?_⟩
  simpa using List.find?_some h

/-- Under the UNIQUE constraint, the row found by `get_order` is the only row
carrying that id. -/
theorem row_unique : ∀ (db : List Order) (oid : String) (o : Order),
    OrderIdsNodup db → get_order db oid = some o →
    ∀ r ∈ db, r.order_id = oid → r = o := by
  intro db
  induction db with
  | nil => intro oid o _ hget; simp [get_order] at hget
  | cons x xs ih =>
    intro oid o hwf hget r hr hrid
    rw [OrderIdsNodup, List.map_cons, List.nodup_cons] at hwf
    rcases List.mem_cons.mp hr with hrx | hrxs
    · subst hrx
      have : get_order (r :: xs) oid = some r := by
        simp [get_order, List.find?_cons, hrid]
      rw [this] at hget
      exact (Option.some.inj hget).symm ▸ rfl
    · by_cases hx : x.order_id = oid
      · exact absurd (List.mem_map.mpr ⟨r, hrxs, by rw [hrid, hx]⟩) hwf.1
      · have hget' : get_order xs oid = some o := by
          simpa [get_order, List.find?_cons, hx] using hget
        exact ih oid o hwf.2 hget' r hrxs hrid

/-- An UPDATE whose WHERE clause matches no row reports `changed = 0` and
leaves the table untouched. -/
theorem update_no_match (db : List Order) (oid : String) (froms : List Status)
    (t : Status) (now : Nat) (em du : Option String)
    (h : ∀ r ∈ db, matches_guard oid froms r = false) :
    update_order_status db oid froms t now em du = (db, false) := by
  have h1 : db.map (fun o => if matches_guard oid froms o then set_row t now em du o else o)
      = db := by
    conv_rhs => rw [← List.map_id db]
    exact List.map_congr_left (fun a ha => by rw [h a ha]; simp)
  have h2 : db.any (matches_guard oid froms) = false :=
    List.any_eq_false.mpr (fun x hx => by simp [h x hx])
  simp [update_order_status, h1, h2]

/-- Under the UNIQUE constraint, an UPDATE whose expected-status set misses
the current status of the addressed row is a global no-op. -/
theorem update_fail {db : List Order} {oid : String} {o : Order}
    (froms : List Status) (t : Status) (now : Nat) (em du : Option String)
    (hwf : OrderIdsNodup db) (hget : get_order db oid = some o)
    (hm : o.status ∉ froms) :
    update_order_status db oid froms t now em du = (db, false) := by
  apply update_no_match
  intro r hr
  by_cases hid : r.order_id = oid
  · have hro : r = o := row_unique db oid o hwf hget r hr hid
    subst hro
    simp [matches_guard, hm]
  · simp [matches_guard, hid]

/-- An UPDATE whose expected-status set contains the current status of the
addressed row reports a change and rewrites exactly the four SET columns of
that row. -/
theorem update_ok {db : List Order} {oid : String} {o : Order}
    (froms : List Status) (t : Status) (now : Nat) (em du : Option String)
    (hget : get_order db oid = some o) (hm : o.status ∈ froms) :
    (update_order_status db oid froms t now em du).2 = true ∧
    get_order (update_order_status db oid froms t now em du).1 oid
      = some (set_row t now em du o) := by
  obtain ⟨hmem, hoid⟩ := get_order_mem hget
  have hguard : matches_guard oid froms o = true := by
    simp [matches_guard, hoid, hm]
  constructor
  · exact List.any_eq_true.mpr ⟨o, hmem, hguard⟩
  · show List.find? _ (db.map _) = _
    rw [List.find?_map]
    have hcomp : ((fun r : Order => r.order_id == oid) ∘
        (fun r => if matches_guard oid froms r then set_row t now em du r else r))
        = (fun r : Order => r.order_id == oid) := by
      funext r
      by_cases h : matches_guard oid froms r <;> simp [h, set_row]
    rw [hcomp]
    have hfind : db.find? (fun r : Order => r.order_id == oid) = some o := hget
    rw [hfind]
    simp [hguard]

/-- `update_order_status` never touches the `order_id` column, so the UNIQUE
constraint survives every update. -/
theorem update_preserves_ids (db : List Order) (oid : String) (froms : List Status)
    (t : Status) (now : Nat) (em du : Option String) :
    (update_order_status db oid froms t now em du).1.map Order.order_id
      = db.map Order.order_id := by
  show (db.map _).map _ = _
  rw [List.map_map]
  apply List.map_congr_left
  intro a _
  by_cases h : matches_guard oid froms a <;> simp [h, set_row]

/-- C1: a claim (`update_order_status` with expected set `{pending}`, target
`approved`) on an order whose persisted status is exactly `pending` succeeds
and moves it to `approved`; on any other status it changes no row and reports
failure; hence of two claims on the same pending order the first succeeds and
the second observes a claim failure with the ledger unchanged. -/
theorem claim_cas_exactly_one (db : List Order) (oid : String) (now1 now2 : Nat)
    (o : Order) (hwf : OrderIdsNodup db) (hget : get_order db oid = some o) :
    (o.status = Status.pending →
      (claim_order db oid now1).2 = true ∧
      get_order (claim_order db oid now1).1 oid
        = some { o with
                   status := Status.approved
                   updated_at := now1
                   error_message := none
                   delivered_uuid := none } ∧
      (claim_order (claim_order db oid now1).1 oid now2).2 = false ∧
      (claim_order (claim_order db oid now1).1 oid now2).1 = (claim_order db oid now1).1) ∧
    (o.status ≠ Status.pending →
      claim_order db oid now1 = (db, false)) := by
  constructor
  · intro hp
    have hm : o.status ∈ [Status.pending] := by simp [hp]
    have hok := update_ok [Status.pending] Status.approved now1 none none hget hm
    have hwf' : OrderIdsNodup (claim_order db oid now1).1 := by
      rw [OrderIdsNodup, claim_order, update_preserves_ids]; exact hwf
    have hm' : (set_row Status.approved now1 none none o).status ∉ [Status.pending] := by
      simp [set_row]
    have hfail : claim_order (claim_order db oid now1).1 oid now2
        = ((claim_order db oid now1).1, false) :=
      update_fail [Status.pending] Status.approved now2 none none hwf' hok.2 hm'
    refine ⟨hok.1, hok.2, ?_, ?_⟩
    · rw [hfail]
    · rw [hfail]
  · intro hnp
    exact update_fail [Status.pending] Status.approved now1 none none hwf hget
      (by simp [hnp])

/-- Witness for C1 on a one-row ledger: the first claim succeeds, the second
claim on the same order fails. -/
theorem claim_cas_exactly_one_witness :
    (claim_order [sampleOrder] "o1" 200).2 = true ∧
    (claim_order (claim_order [sampleOrder] "o1" 200).1 "o1" 201).2 = false := by
  have h := claim_cas_exactly_one [sampleOrder] "o1" 200 201 sampleOrder
    (by decide) (by decide)
  exact ⟨(h.1 rfl).1, (h.1 rfl).2.2.1⟩

/-- C2: `delivered` is absorbing.  No `from_statuses` list the program ever
passes to `update_order_status` contains `delivered`, and any update guarded
by such a list on a delivered order reports no change and leaves every column
of every row unchanged. -/
theorem delivered_absorbing (db : List Order) (oid : String) (o : Order)
    (hwf : OrderIdsNodup db) (hget : get_order db oid = some o)
    (hdel : o.status = Status.delivered) :
    (∀ froms ∈ program_from_statuses, Status.delivered ∉ froms) ∧
    (∀ froms, Status.delivered ∉ froms → ∀ t now em du,
      update_order_status db oid froms t now em du = (db, false)) := by
  refine ⟨by decide, ?_⟩
  intro froms hnf t now em du
  exact update_fail froms t now em du hwf hget (by rw [hdel]; exact hnf)

/-- Witness for C2: an admin reject attempt on a delivered order is a global
no-op reporting failure. -/
theorem delivered_absorbing_witness :
    update_order_status [sampleDelivered] "o2" [Status.pending, Status.approved]
      Status.rejected 300 (some "rejected_by_admin") none = ([sampleDelivered], false) :=
  (delivered_absorbing [sampleDelivered] "o2" sampleDelivered (by decide) (by decide)
    rfl).2 [Status.pending, Status.approved] (by decide) Status.rejected 300
    (some "rejected_by_admin") none

/-- C3: while the requester has (exactly) one pending order, `create_order`
returns it with `created=false` and inserts nothing; with no pending order it
inserts exactly one fresh `pending` row and returns `created=true`, and a
second submit then returns that same row (same `order_id`) with
`created=false`. -/
theorem create_order_idempotent (db : List Order) (tg : Nat)
    (pk ot tu : String) (mm : Option Nat) (now : Nat) (nid : String)
    (pk2 ot2 tu2 : String) (mm2 : Option Nat) (now2 : Nat) (nid2 : String) :
    (∀ e, pending_for db tg = [e] →
        create_order db tg pk ot tu mm now nid = (db, e, false)) ∧
    (pending_for db tg = [] →
        create_order db tg pk ot tu mm now nid
          = (db ++ [new_order tg pk ot tu mm now nid],
             new_order tg pk ot tu mm now nid, true) ∧
        (new_order tg pk ot tu mm now nid).status = Status.pending ∧
        (new_order tg pk ot tu mm now nid).order_id = nid ∧
        (db ++ [new_order tg pk ot tu mm now nid]).length = db.length + 1 ∧
        create_order (db ++ [new_order tg pk ot tu mm now nid]) tg pk2 ot2 tu2 mm2 now2 nid2
          = (db ++ [new_order tg pk ot tu mm now nid],
             new_order tg pk ot tu mm now nid, false)) := by
  constructor
  · intro e he
    simp [create_order, he, latest_created]
  · intro hnone
    have hfirst : create_order db tg pk ot tu mm now nid
        = (db ++ [new_order tg pk ot tu mm now nid],
           new_order tg pk ot tu mm now nid, true) := by
      simp [create_order, hnone, latest_created]
    have hp : pending_for (db ++ [new_order tg pk ot tu mm now nid]) tg
        = [new_order tg pk ot tu mm now nid] := by
      unfold pending_for at hnone ⊢
      rw [List.filter_append, hnone]
      simp [new_order]
    refine ⟨hfirst, rfl, rfl, by simp, ?_⟩
    simp [create_order, hp, latest_created]

/-- Witness for C3: submitting twice on an empty ledger hands back the order
created by the first submit, with `created=false` the second time. -/
theorem create_order_idempotent_witness :
    create_order (create_order [] 7 "p1" "new" "0" none 100 "id1").1
      7 "p2" "new" "0" none 200 "id2"
      = ((create_order [] 7 "p1" "new" "0" none 100 "id1").1,
         new_order 7 "p1" "new" "0" none 100 "id1", false) := by
  have h := (create_order_idempotent [] 7 "p1" "new" "0" none 100 "id1"
    "p2" "new" "0" none 200 "id2").2 rfl
  rw [h.1]
  exact h.2.2.2.2

/-- C10: a successful `update_order_status` rewrites `error_message` and
`delivered_uuid` to exactly the values passed (NULL by default): the claim
call clears any stored error detail, and the operator retry replaces the
stored failure reason with the fixed string `retry_by_admin`. -/
theorem status_update_overwrites_fields (db : List Order) (oid : String) (o : Order)
    (hget : get_order db oid = some o) :
    (∀ froms t now em du, o.status ∈ froms →
        get_order (update_order_status db oid froms t now em du).1 oid
          = some { o with
                     status := t
                     updated_at := now
                     error_message := em
                     delivered_uuid := du }) ∧
    (o.status = Status.pending → ∀ now,
        get_order (claim_order db oid now).1 oid
          = some { o with
                     status := Status.approved
                     updated_at := now
                     error_message := none
                     delivered_uuid := none }) ∧
    (o.status = Status.failed → ∀ now,
        get_order (retry_order db oid now).1 oid
          = some { o with
                     status := Status.approved
                     updated_at := now
                     error_message := some "retry_by_admin"
                     delivered_uuid := none }) := by
  refine ⟨?_, ?_, ?_⟩
  · intro froms t now em du hm
    exact (update_ok froms t now em du hget hm).2
  · intro hp now
    exact (update_ok [Status.pending] Status.approved now none none hget (by simp [hp])).2
  · intro hf now
    exact (update_ok [Status.failed] Status.approved now (some "retry_by_admin") none hget
      (by simp [hf])).2

/-- Witness for C10: retrying a failed order replaces its stored categorized
failure reason with `retry_by_admin`. -/
theorem status_update_overwrites_fields_witness :
    get_order (retry_order [sampleFailed] "o3" 400).1 "o3"
      = some { sampleFailed with
                 status := Status.approved
                 updated_at := 400
                 error_message := some "retry_by_admin"
                 delivered_uuid := none } :=
  (status_update_overwrites_fields [sampleFailed] "o3" sampleFailed (by decide)).2.2
    rfl 400

/-- C4: on a renewal, if the entitlement's current expiry parsed and lies
strictly in the future the new expiry sent to the gateway is `T0` plus the
plan's duration in days; a past (or equal) expiry, or an absent/unparseable
one, yields `now` plus the duration instead. -/
theorem renewal_expiry_arithmetic (now add_days : Int) :
    (∀ t0, t0 > now → renewal_new_expire (some t0) now add_days
        = t0 + add_days * 86400) ∧
    (∀ t0, t0 ≤ now → renewal_new_expire (some t0) now add_days
        = now + add_days * 86400) ∧
    renewal_new_expire none now add_days = now + add_days * 86400 := by
  refine ⟨?_, ?_, ?_⟩
  · intro t0 h
    show (if t0 > now then t0 + add_days * 86400 else now + add_days * 86400) = _
    rw [if_pos h]
  · intro t0 h
    show (if t0 > now then t0 + add_days * 86400 else now + add_days * 86400) = _
    rw [if_neg (by omega)]
  · show (if now > now then now + add_days * 86400 else now + add_days * 86400) = _
    rw [if_neg (by omega)]

/-- Witness for C4: a future expiry extends from the expiry, a lapsed one
from now, an unparseable one from now. -/
theorem renewal_expiry_arithmetic_witness :
    renewal_new_expire (some 1000) 500 30 = 1000 + 30 * 86400 ∧
    renewal_new_expire (some 400) 500 30 = 500 + 30 * 86400 ∧
    renewal_new_expire none 500 30 = 500 + 30 * 86400 := by
  have h := renewal_expiry_arithmetic 500 30
  exact ⟨h.1 1000 (by decide), h.2.1 400 (by decide), h.2.2⟩

/-- C5 as stated is false: on a periodic-reset (`DAY`) renewal with current
limit 5 bytes and plan allowance 10 bytes the program sends 5 — the current
limit unchanged — not the plan's allowance 10. -/
theorem renewal_traffic_counterexample :
    renewal_new_limit 5 10 "DAY" = 5 ∧ renewal_new_limit 5 10 "DAY" ≠ 10 := by
  constructor
  · decide
  · decide

/-- C5 amended: the traffic limit sent on renewal is the entitlement's
current limit plus the plan's allowance under `NO_RESET`, and the current
limit unchanged (the plan's allowance is not applied) under every other
strategy, i.e. the periodic DAY/WEEK/MONTH reset policies. -/
theorem renewal_traffic_amended (current_limit add_traffic : Int) :
    renewal_new_limit current_limit add_traffic "NO_RESET"
      = current_limit + add_traffic ∧
    (∀ s, s ≠ "NO_RESET" → renewal_new_limit current_limit add_traffic s
      = current_limit) := by
  constructor
  · simp [renewal_new_limit]
  · intro s hs
    simp [renewal_new_limit, hs]

/-- Witness for C5's amended statement at concrete limits. -/
theorem renewal_traffic_amended_witness :
    renewal_new_limit 5 10 "NO_RESET" = 15 ∧ renewal_new_limit 5 10 "WEEK" = 5 := by
  have h := renewal_traffic_amended 5 10
  exact ⟨h.1, h.2 "WEEK" (by decide)⟩

/-- C9 as stated is false: a POST (mutating entitlement create) whose first
attempt returns HTTP 429 is automatically re-issued by `safe_api_request`,
so one delivery attempt produces two gateway requests. -/
theorem mutating_retry_counterexample :
    safe_api_request HttpMethod.post [ApiOutcome.resp 429, ApiOutcome.resp 200]
      = (some 200, 2) := by decide

/-- Bound on the request count of the retry loop entered at any attempt
index: at most `1 + (3 - attempt)` requests are issued. -/
theorem safe_api_request_from_bound (m : HttpMethod) :
    ∀ (outs : List ApiOutcome) (attempt : Nat),
      (safe_api_request_from m attempt outs).2 ≤ 1 + (3 - attempt) := by
  intro outs
  induction outs with
  | nil => intro attempt; simp [safe_api_request_from]
  | cons o rest ih =>
    intro attempt
    cases o with
    | resp code =>
      by_cases h : code ∈ retryable_status_codes ∧ attempt < 3
      · have hr := ih (attempt + 1)
        simp only [safe_api_request_from, if_pos h]
        omega
      · simp only [safe_api_request_from, if_neg h]
        omega
    | httpErr =>
      by_cases h : attempt < 3
      · have hr := ih (attempt + 1)
        simp only [safe_api_request_from, if_pos h]
        omega
      · simp only [safe_api_request_from, if_neg h]
        omega
    | otherErr =>
      simp only [safe_api_request_from]
      omega

/-- C9 amended: `safe_api_request` does retry mutating calls, but in a
bounded way — at most 3 HTTP requests per call, a retry happens only after a
retryable status (429/500/502/503/504) or a transport error, and a
non-retryable first response is returned after exactly one request. -/
theorem bounded_retry_amended :
    (∀ m outs, (safe_api_request m outs).2 ≤ 3) ∧
    (∀ m code rest, code ∉ retryable_status_codes →
        safe_api_request m (ApiOutcome.resp code :: rest) = (some code, 1)) ∧
    (∀ m o rest, 2 ≤ (safe_api_request m (o :: rest)).2 →
        (∃ code, o = ApiOutcome.resp code ∧ code ∈ retryable_status_codes) ∨
        o = ApiOutcome.httpErr) := by
  refine ⟨?_, ?_, ?_⟩
  · intro m outs
    have h := safe_api_request_from_bound m outs 1
    simpa [safe_api_request] using h
  · intro m code rest h
    simp [safe_api_request, safe_api_request_from, h]
  · intro m o rest h
    cases o with
    | resp code =>
      by_cases hc : code ∈ retryable_status_codes ∧ (1 : Nat) < 3
      · exact Or.inl ⟨code, rfl, hc.1⟩
      · simp only [safe_api_request, safe_api_request_from, if_neg hc] at h
        omega
    | httpErr => exact Or.inr rfl
    | otherErr =>
      simp only [safe_api_request, safe_api_request_from] at h
      omega

/-- Witness for C9's amended statement: a PATCH answered 400 makes exactly
one request; a 429 first outcome is a legitimate retry trigger. -/
theorem bounded_retry_amended_witness :
    (safe_api_request HttpMethod.patch [ApiOutcome.resp 400]).2 ≤ 3 ∧
    safe_api_request HttpMethod.patch [ApiOutcome.resp 400] = (some 400, 1) ∧
    ((∃ code, ApiOutcome.resp 429 = ApiOutcome.resp code ∧
        code ∈ retryable_status_codes) ∨ ApiOutcome.resp 429 = ApiOutcome.httpErr) := by
  have h := bounded_retry_amended
  exact ⟨h.1 HttpMethod.patch [ApiOutcome.resp 400],
    h.2.1 HttpMethod.patch 400 [] (by decide),
    h.2.2 HttpMethod.patch (ApiOutcome.resp 429) [ApiOutcome.resp 200] (by decide)⟩

/-- The running maximum never drops below its initial value. -/
theorem foldl_max_init_le : ∀ (l : List LogRecord) (a : Int),
    a ≤ l.foldl (fun m r => max m r.ts) a := by
  intro l
  induction l with
  | nil => intro a; exact le_refl a
  | cons x xs ih =>
    intro a
    exact le_trans (le_max_left a x.ts) (ih (max a x.ts))

/-- The running maximum dominates the timestamp of every list member. -/
theorem foldl_max_mem_le : ∀ (l : List LogRecord) (a : Int) (r : LogRecord), r ∈ l →
    r.ts ≤ l.foldl (fun m r => max m r.ts) a := by
  intro l
  induction l with
  | nil => intro a r hr; simp at hr
  | cons x xs ih =>
    intro a r hr
    rcases List.mem_cons.mp hr with h | h
    · subst h
      exact le_trans (le_max_right a r.ts) (foldl_max_init_le xs (max a r.ts))
    · exact ih (max a x.ts) r h

/-- The running maximum is the initial value or some member timestamp. -/
theorem foldl_max_eq_init_or_mem : ∀ (l : List LogRecord) (a : Int),
    l.foldl (fun m r => max m r.ts) a = a ∨
    l.foldl (fun m r => max m r.ts) a ∈ l.map LogRecord.ts := by
  intro l
  induction l with
  | nil => intro a; exact Or.inl rfl
  | cons x xs ih =>
    intro a
    rw [List.foldl_cons]
    rcases ih (max a x.ts) with h | h
    · rcases max_choice a x.ts with hm | hm
      · left; rw [h, hm]
      · right; rw [h, hm]; simp
    · right
      rw [List.map_cons]
      exact List.mem_cons_of_mem _ h

/-- C6 as stated is false at the boundary: with IP threshold 2, a subject
with `ip_count = 2` and `score = 4 = 2 * threshold` is promoted by the code
(whose skip test is `score < threshold * 2`), while the claim's condition —
`ip_count` exceeds the threshold or `score` exceeds twice the threshold,
both strict — is false there. -/
theorem promotion_boundary_counterexample :
    (build_anomaly_incidents boundaryLogs 0 [] 2).1.map
        (fun inc => (inc.uid, inc.ip_count, inc.score)) = [("u", 2, 4)] ∧
    ¬ spec_promotes 2 4 2 := by
  constructor
  · decide
  · decide

set_option maxRecDepth 10000 in
/-- C6 amended: every emitted incident carries `density = min(record count,
20)` and `score = ip_count*2 + ua_diversity + density/3` (integer division),
and a subject of the batch is promoted exactly when `ip_count` exceeds the
IP threshold or `score` is AT LEAST twice that threshold; on the worked
example (30 addresses, 5 signatures, 30 records) the single incident scores
`30*2 + 5 + 20/3 = 71`. -/
theorem promotion_rule_amended :
    (∀ logs last wl T, ∀ inc ∈ (build_anomaly_incidents logs last wl T).1,
        inc = build_incident logs last wl inc.uid ∧
        inc.density = min (userRecords logs last wl inc.uid).length 20 ∧
        inc.score = inc.ip_count * 2 + inc.ua_diversity + inc.density / 3 ∧
        (inc.ip_count > T ∨ inc.score ≥ T * 2)) ∧
    (∀ logs last wl T uid, uid ∈ subjectUids logs last wl →
        (ipCountOf logs last wl uid > T ∨ scoreOf logs last wl uid ≥ T * 2) →
        build_incident logs last wl uid ∈ (build_anomaly_incidents logs last wl T).1) ∧
    ((build_anomaly_incidents exampleLogs 0 [] 20).1.map
        (fun inc => (inc.ip_count, inc.ua_diversity, inc.density, inc.score))
      = [(30, 5, 20, 71)]) := by
  refine ⟨?_, ?_, ?_⟩
  · intro logs last wl T inc hmem
    have hmem' : inc ∈ (subjectUids logs last wl).filterMap (fun uid =>
        if (build_incident logs last wl uid).ip_count ≤ T ∧
           (build_incident logs last wl uid).score < T * 2 then none
        else some (build_incident logs last wl uid)) := hmem
    obtain ⟨uid, _, hf⟩ := List.mem_filterMap.mp hmem'
    by_cases hc : (build_incident logs last wl uid).ip_count ≤ T ∧
        (build_incident logs last wl uid).score < T * 2
    · rw [if_pos hc] at hf
      cases hf
    · rw [if_neg hc] at hf
      have hbi : build_incident logs last wl uid = inc := Option.some.inj hf
      have huid : inc.uid = uid := by rw [← hbi]; rfl
      rw [not_and_or, not_le, not_lt] at hc
      refine ⟨?_, ?_, ?_, ?_⟩
      · rw [huid]; exact hbi.symm
      · rw [huid, ← hbi]; rfl
      · rw [← hbi]; rfl
      · rw [← hbi]
        rcases hc with hc | hc
        · exact Or.inl hc
        · exact Or.inr hc
  · intro logs last wl T uid hu hp
    have hcond : ¬ ((build_incident logs last wl uid).ip_count ≤ T ∧
        (build_incident logs last wl uid).score < T * 2) := by
      have h1 : (build_incident logs last wl uid).ip_count
          = ipCountOf logs last wl uid := rfl
      have h2 : (build_incident logs last wl uid).score
          = scoreOf logs last wl uid := rfl
      rw [h1, h2]
      rcases hp with hp | hp
      · intro hand; omega
      · intro hand; omega
    refine List.mem_filterMap.mpr ⟨uid, hu, ?_⟩
    rw [if_neg hcond]
  · decide

/-- Witness for C6's amended statement: on the boundary batch, subject `u`
is promoted under the inclusive rule and its incident satisfies the scoring
equation. -/
theorem promotion_rule_amended_witness :
    build_incident boundaryLogs 0 [] "u" ∈ (build_anomaly_incidents boundaryLogs 0 [] 2).1 ∧
    (build_incident boundaryLogs 0 [] "u").score
      = (build_incident boundaryLogs 0 [] "u").ip_count * 2
        + (build_incident boundaryLogs 0 [] "u").ua_diversity
        + (build_incident boundaryLogs 0 [] "u").density / 3 := by
  have h2 := promotion_rule_amended.2.1 boundaryLogs 0 [] 2 "u" (by decide)
    (Or.inr (by decide))
  have h1 := promotion_rule_amended.1 boundaryLogs 0 [] 2 _ h2
  exact ⟨h2, h1.2.2.1⟩

/-- `dict.pop` leaves no entry keyed by the popped uid. -/
theorem candidates_pop_ne (l : List (String × Nat)) (uid : String) :
    ∀ p ∈ candidates_pop l uid, p.1 ≠ uid := by
  intro p hp
  have h := (List.mem_filter.mp hp).2
  simpa using h

/-- `d[uid] = t` makes `(uid, t)` an entry of the dict. -/
theorem candidates_set_mem (l : List (String × Nat)) (uid : String) (t : Nat) :
    (uid, t) ∈ candidates_set l uid t := by
  unfold candidates_set
  by_cases h : l.any (fun p => p.1 == uid)
  · rw [if_pos h]
    obtain ⟨p, hp, hpe⟩ := List.any_eq_true.mp h
    refine List.mem_map.mpr ⟨p, hp, ?_⟩
    rw [if_pos hpe]
  · rw [if_neg h]
    exact List.mem_append_right _ (List.mem_singleton.mpr rfl)

/-- `set.add` makes the uid a member of the watchlist. -/
theorem watchlist_add_mem (wl : List String) (uid : String) :
    uid ∈ watchlist_add wl uid := by
  unfold watchlist_add
  by_cases h : wl.contains uid
  · rw [if_pos h]
    simpa using h
  · rw [if_neg h]
    exact List.mem_append_right _ (List.mem_singleton.mpr rfl)

/-- The responder loop appends exactly one anomaly event per incident. -/
theorem run_responder_events_count_aux (low_score high_score now : Nat) :
    ∀ (incs : List Incident) (st : RiskState) (calls : List RemoteCall)
      (evs : List AnomalyEvent),
      (incs.foldl (fun acc inc =>
          ((respond_incident low_score high_score now acc.1 inc).1,
           acc.2.1 ++ (respond_incident low_score high_score now acc.1 inc).2.1,
           acc.2.2 ++ [(respond_incident low_score high_score now acc.1 inc).2.2]))
        (st, calls, evs)).2.2.length = evs.length + incs.length := by
  intro incs
  induction incs with
  | nil => intro st calls evs; simp
  | cons i rest ih =>
    intro st calls evs
    rw [List.foldl_cons]
    have h := ih (respond_incident low_score high_score now st i).1
      (calls ++ (respond_incident low_score high_score now st i).2.1)
      (evs ++ [(respond_incident low_score high_score now st i).2.2])
    rw [h, List.length_append, List.length_cons]
    simp
    omega

set_option maxRecDepth 10000 in
/-- C7: with cutoffs `low < high`, a score at or above `high` yields a High
incident — remote disable issued, subject dropped from the unfreeze
candidates, event recorded with the disable label (`禁用`); a score in
`[low, high)` yields Medium — remote status set to `LIMITED`, subject added
to the unfreeze candidates at the current time (`限速`); a score below `low`
yields Low — subject added to the passive watchlist, no remote call
(`告警`); every path records exactly one anomaly event, one per incident
across a whole cycle; and the spec's high-tier example (60 addresses, 5
signatures, density 20) scores `131 ≥ 130` and is disabled. -/
theorem graduated_response (low_score high_score : Nat)
    (hlh : low_score < high_score) (now : Nat) (st : RiskState) (inc : Incident)
    (incs : List Incident) :
    (high_score ≤ inc.score →
        respond_incident low_score high_score now st inc
          = ({ st with unfreeze_candidates := candidates_pop st.unfreeze_candidates inc.uid },
             [RemoteCall.disableUser inc.uid],
             { user_uuid := inc.uid, risk_level := "高", risk_score := inc.score,
               ip_count := inc.ip_count, ua_diversity := inc.ua_diversity,
               density := inc.density, action_taken := "禁用", created_at := now }) ∧
        ∀ p ∈ (respond_incident low_score high_score now st inc).1.unfreeze_candidates,
          p.1 ≠ inc.uid) ∧
    (low_score ≤ inc.score → inc.score < high_score →
        respond_incident low_score high_score now st inc
          = ({ st with unfreeze_candidates := candidates_set st.unfreeze_candidates inc.uid now },
             [RemoteCall.patchStatus inc.uid "LIMITED"],
             { user_uuid := inc.uid, risk_level := "中", risk_score := inc.score,
               ip_count := inc.ip_count, ua_diversity := inc.ua_diversity,
               density := inc.density, action_taken := "限速", created_at := now }) ∧
        (inc.uid, now) ∈ (respond_incident low_score high_score now st inc).1.unfreeze_candidates ∧
        (respond_incident low_score high_score now st inc).1.watchlist = st.watchlist) ∧
    (inc.score < low_score →
        respond_incident low_score high_score now st inc
          = ({ st with watchlist := watchlist_add st.watchlist inc.uid },
             [],
             { user_uuid := inc.uid, risk_level := "低", risk_score := inc.score,
               ip_count := inc.ip_count, ua_diversity := inc.ua_diversity,
               density := inc.density, action_taken := "告警", created_at := now }) ∧
        inc.uid ∈ (respond_incident low_score high_score now st inc).1.watchlist ∧
        (respond_incident low_score high_score now st inc).1.unfreeze_candidates
          = st.unfreeze_candidates) ∧
    (run_responder low_score high_score now st incs).2.2.length = incs.length ∧
    ((build_anomaly_incidents exampleHighLogs 0 [] 20).1.map
        (fun i => (i.score, (respond_incident 80 130 999 ⟨[], []⟩ i).2.2.action_taken))
      = [(131, "禁用")]) := by
  refine ⟨?_, ?_, ?_, ?_, ?_⟩
  · intro hh
    have heq : respond_incident low_score high_score now st inc
        = ({ st with unfreeze_candidates := candidates_pop st.unfreeze_candidates inc.uid },
           [RemoteCall.disableUser inc.uid],
           { user_uuid := inc.uid, risk_level := "高", risk_score := inc.score,
             ip_count := inc.ip_count, ua_diversity := inc.ua_diversity,
             density := inc.density, action_taken := "禁用", created_at := now }) := by
      unfold respond_incident
      rw [if_pos hh]
    refine ⟨heq, ?_⟩
    rw [heq]
    exact candidates_pop_ne st.unfreeze_candidates inc.uid
  · intro hl hh
    have heq : respond_incident low_score high_score now st inc
        = ({ st with unfreeze_candidates := candidates_set st.unfreeze_candidates inc.uid now },
           [RemoteCall.patchStatus inc.uid "LIMITED"],
           { user_uuid := inc.uid, risk_level := "中", risk_score := inc.score,
             ip_count := inc.ip_count, ua_diversity := inc.ua_diversity,
             density := inc.density, action_taken := "限速", created_at := now }) := by
      unfold respond_incident
      rw [if_neg (by omega), if_pos hl]
    refine ⟨heq, ?_, ?_⟩
    · rw [heq]
      exact candidates_set_mem st.unfreeze_candidates inc.uid now
    · rw [heq]
  · intro hlt
    have heq : respond_incident low_score high_score now st inc
        = ({ st with watchlist := watchlist_add st.watchlist inc.uid },
           [],
           { user_uuid := inc.uid, risk_level := "低", risk_score := inc.score,
             ip_count := inc.ip_count, ua_diversity := inc.ua_diversity,
             density := inc.density, action_taken := "告警", created_at := now }) := by
      unfold respond_incident
      rw [if_neg (by omega), if_neg (by omega)]
    refine ⟨heq, ?_, ?_⟩
    · rw [heq]
      exact watchlist_add_mem st.watchlist inc.uid
    · rw [heq]
  · have h := run_responder_events_count_aux low_score high_score now incs st [] []
    simpa using h
  · decide

/-- Witness for C7: a score-131 incident with cutoffs 80/130 disables the
subject remotely, drops it from the unfreeze candidates, and records one
event labelled `禁用` (disable). -/
theorem graduated_response_witness :
    respond_incident 80 130 999 ⟨["w"], [("u", 5)]⟩ ⟨"u", 60, 5, 20, 131, []⟩
      = (⟨["w"], []⟩, [RemoteCall.disableUser "u"],
         ⟨"u", "高", 131, 60, 5, 20, "禁用", 999⟩) := by
  have h := graduated_response 80 130 (by decide) 999 ⟨["w"], [("u", 5)]⟩
    ⟨"u", 60, 5, 20, 131, []⟩ []
  have h2 := (h.1 (by decide)).1
  rw [h2]
  decide

/-- C8 as stated is false: records whose timestamp fields did not parse
carry `_ts = 0` and bypass the high-water filter.  Processing this
two-record batch with mark 100 leaves the persisted mark at 100, and
re-running the detector on the very same batch against that persisted mark
produces the same incident again instead of zero new incidents. -/
theorem replay_zero_ts_counterexample :
    (build_anomaly_incidents replayLogs 100 [] 1).2 = 100 ∧
    persisted_mark 100 (build_anomaly_incidents replayLogs 100 [] 1).2 = 100 ∧
    (build_anomaly_incidents replayLogs
        (persisted_mark 100 (build_anomaly_incidents replayLogs 100 [] 1).2)
        [] 1).1.length = 1 := by
  refine ⟨?_, ?_, ?_⟩
  · decide
  · decide
  · decide

/-- C8 amended: the returned mark never decreases — it is the maximum of the
previous mark and the timestamps of the records passing the timestamp
filter this cycle — and the conditional persist keeps it monotone; replaying
a batch all of whose records carry a positive timestamp at or below the mark
produces zero incidents and leaves the mark unchanged (records with
timestamp 0 are exempt from the filter and are re-scored every cycle). -/
theorem high_water_mark_amended :
    (∀ logs (last : Int) wl T, last ≤ (build_anomaly_incidents logs last wl T).2) ∧
    (∀ logs (last : Int) wl T, ∀ r ∈ freshRecords logs last,
        r.ts ≤ (build_anomaly_incidents logs last wl T).2) ∧
    (∀ logs (last : Int) wl T, (build_anomaly_incidents logs last wl T).2 = last ∨
        (build_anomaly_incidents logs last wl T).2
          ∈ (freshRecords logs last).map LogRecord.ts) ∧
    (∀ (logs : List LogRecord) (last : Int) wl T,
        (∀ r ∈ logs, 0 < r.ts ∧ r.ts ≤ last) →
        build_anomaly_incidents logs last wl T = ([], last)) ∧
    (∀ (last found : Int), last ≤ persisted_mark last found) := by
  refine ⟨?_, ?_, ?_, ?_, ?_⟩
  · intro logs last wl T
    exact foldl_max_init_le (freshRecords logs last) last
  · intro logs last wl T r hr
    exact foldl_max_mem_le (freshRecords logs last) last r hr
  · intro logs last wl T
    exact foldl_max_eq_init_or_mem (freshRecords logs last) last
  · intro logs last wl T h
    have hskip : ∀ r ∈ logs, skipTs last r = true := by
      intro r hr
      have hts := h r hr
      simp only [skipTs, Bool.and_eq_true, decide_eq_true_eq]
      constructor
      · omega
      · exact hts.2
    have h1 : logs.filter (scoredRecord last wl) = [] := by
      rw [List.filter_eq_nil_iff]
      intro r hr
      simp [scoredRecord, hskip r hr]
    have h2 : freshRecords logs last = [] := by
      rw [freshRecords, List.filter_eq_nil_iff]
      intro r hr
      simp [hskip r hr]
    have hu : subjectUids logs last wl = [] := by
      rw [subjectUids, h1]
      rfl
    have hm : max_seen_ts logs last = last := by
      rw [max_seen_ts, h2]
      rfl
    unfold build_anomaly_incidents
    rw [hu, hm]
    rfl
  · intro last found
    unfold persisted_mark
    by_cases h : found > last
    · rw [if_pos h]
      omega
    · rw [if_neg h]

/-- Witness for C8's amended statement: a batch whose single record sits at
or below the mark yields no incident and leaves the mark at 10. -/
theorem high_water_mark_amended_witness :
    build_anomaly_incidents [⟨5, "u", "1.1.1.1", "", ""⟩] 10 [] 1 = ([], 10) :=
  high_water_mark_amended.2.2.2.1 [⟨5, "u", "1.1.1.1", "", ""⟩] 10 [] 1 (by decide)

end RemnaShop
